import Mathlib

/-!
Verification of the Session Channel and Permission Broker of AIAdminUI.

The development shallowly embeds the client-side stores and handlers:
  * the permission store (stores/permissions.ts): pending requests,
    session/persistent grant stores, tool-use tracker;
  * the websocket lifecycle (hooks/useWebSocket.ts): connect / disconnect,
    the onopen / onclose handlers with exponential reconnect backoff, and
    the tool_use message handler;
  * the mode store (stores/mode.ts): plan-mode toggling;
  * the slash-command table and parser (lib/commands.ts) together with the
    send handler of the session page.
JavaScript Record objects are modelled as association lists; an object
spread update is modelled by prepending the binding, which is
observationally equal with respect to key lookup because List.lookup
returns the first binding.  Timestamps (new Date()) are modelled as an
explicit Nat clock argument.
-/

namespace AIAdminUI

/-- Tool kinds, the closed set of the TS union type ToolType. -/
inductive ToolType where
  | read
  | write
  | bash
  | browser
  | mcp
deriving DecidableEq, Repr

/-- String form of a tool kind, as interpolated into permission keys. -/
def ToolType.str : ToolType → String
  | .read => "read"
  | .write => "write"
  | .bash => "bash"
  | .browser => "browser"
  | .mcp => "mcp"

/-- Permission scopes of the TS union type PermissionScope. -/
inductive PermissionScope where
  | once
  | session
  | always
deriving DecidableEq, Repr

/-- Statuses of a permission request. -/
inductive PermissionStatus where
  | pending
  | approved
  | denied
deriving DecidableEq, Repr

/-- Statuses of a tracked tool use. -/
inductive ToolStatus where
  | pending
  | running
  | completed
  | error
deriving DecidableEq, Repr

/-- A pending permission request (interface PermissionRequest). -/
structure PermissionRequest where
  id : String
  tool : ToolType
  path : Option String
  command : Option String
  description : String
  timestamp : Nat
  status : PermissionStatus
deriving DecidableEq, Repr

/-- One tracked tool invocation (interface ToolUse). -/
structure ToolUse where
  id : String
  tool : ToolType
  status : ToolStatus
  path : Option String
  command : Option String
  description : String
  result : Option String
  error : Option String
  timestamp : Nat
deriving DecidableEq, Repr

/-- A grant store: the model of a JS Record from permission key to boolean. -/
abbrev GrantStore := List (String × Bool)

/-- Object spread update obj with key set to v.  Prepending is
observationally equal to the JS in-place update for key lookup, since
List.lookup returns the first binding. -/
def setKey (s : GrantStore) (k : String) (v : Bool) : GrantStore :=
  (k, v) :: s

/-- Removal of a key, the rest-pattern destructuring in
clearPersistentPermission. -/
def removeKey (s : GrantStore) (k : String) : GrantStore :=
  s.filter (fun kv => kv.1 ≠ k)

/-- Permission key format: "tool:path", or "tool:*" when the path is
absent.  The JS conditional tests truthiness, so an empty-string path also
produces the wildcard key. -/
def getPermissionKey (tool : ToolType) (path : Option String) : String :=
  match path with
  | some p => if p = "" then tool.str ++ ":*" else tool.str ++ ":" ++ p
  | none => tool.str ++ ":*"

/-- The permission store state (interface PermissionState, data fields). -/
structure PermissionState where
  pendingRequests : List PermissionRequest
  sessionPermissions : GrantStore
  persistentPermissions : GrantStore
  toolUses : List ToolUse
deriving DecidableEq, Repr

/-- addRequest: appends the request with status forced to pending. -/
def addRequest (st : PermissionState) (r : PermissionRequest) : PermissionState :=
  { st with pendingRequests := st.pendingRequests ++ [{ r with status := .pending }] }

/-- resolveRequest: looks up the pending request by id; if absent the state
is returned unchanged.  Otherwise the request is removed from the queue
and, depending on the scope, a grant is written into the session or the
persistent store; the once scope stores nothing. -/
def resolveRequest (st : PermissionState) (id : String) (allowed : Bool)
    (scope : PermissionScope) : PermissionState :=
  match st.pendingRequests.find? (fun r => r.id = id) with
  | none => st
  | some request =>
    let key := getPermissionKey request.tool request.path
    let st1 : PermissionState :=
      { st with pendingRequests := st.pendingRequests.filter (fun r => r.id ≠ id) }
    match scope with
    | .session => { st1 with sessionPermissions := setKey st1.sessionPermissions key allowed }
    | .always => { st1 with persistentPermissions := setKey st1.persistentPermissions key allowed }
    | .once => st1

/-- checkPermission: persistent exact key, then persistent wildcard, then
session exact key, then session wildcard; none when no key is present. -/
def checkPermission (st : PermissionState) (tool : ToolType)
    (path : Option String) : Option Bool :=
  let specificKey := getPermissionKey tool path
  let wildcardKey := getPermissionKey tool none
  match st.persistentPermissions.lookup specificKey with
  | some v => some v
  | none =>
    match st.persistentPermissions.lookup wildcardKey with
    | some v => some v
    | none =>
      match st.sessionPermissions.lookup specificKey with
      | some v => some v
      | none => st.sessionPermissions.lookup wildcardKey

/-- Modelled from the spec (refinement companion to checkPermission): the
lookup consults, in fixed order, persistent exact, persistent wildcard,
session exact, session wildcard, and returns the first cached boolean
found. -/
def checkPermissionSpec (st : PermissionState) (tool : ToolType)
    (path : Option String) : Option Bool :=
  let specificKey := getPermissionKey tool path
  let wildcardKey := getPermissionKey tool none
  ([st.persistentPermissions.lookup specificKey,
    st.persistentPermissions.lookup wildcardKey,
    st.sessionPermissions.lookup specificKey,
    st.sessionPermissions.lookup wildcardKey].filterMap id).head?

/-- addToolUse: appends the tool use with the timestamp overridden by the
current clock, as the spread with new Date() does. -/
def addToolUse (st : PermissionState) (now : Nat) (t : ToolUse) : PermissionState :=
  { st with toolUses := st.toolUses ++ [{ t with timestamp := now }] }

/-- A Partial ToolUse record: every field optional, present fields
replace. -/
structure ToolUseUpdate where
  id : Option String
  tool : Option ToolType
  status : Option ToolStatus
  path : Option (Option String)
  command : Option (Option String)
  description : Option String
  result : Option (Option String)
  error : Option (Option String)
  timestamp : Option Nat
deriving DecidableEq, Repr

/-- Spread merge of a tool use with a Partial update. -/
def mergeToolUse (t : ToolUse) (u : ToolUseUpdate) : ToolUse :=
  { id := u.id.getD t.id
    tool := u.tool.getD t.tool
    status := u.status.getD t.status
    path := u.path.getD t.path
    command := u.command.getD t.command
    description := u.description.getD t.description
    result := u.result.getD t.result
    error := u.error.getD t.error
    timestamp := u.timestamp.getD t.timestamp }

/-- The Partial update that sets only the status field. -/
def statusUpdate (s : ToolStatus) : ToolUseUpdate :=
  ⟨none, none, some s, none, none, none, none, none, none⟩

/-- updateToolUse: maps over the history, merging the update into every
entry with the matching id; an unknown id changes nothing. -/
def updateToolUse (st : PermissionState) (id : String) (u : ToolUseUpdate) :
    PermissionState :=
  { st with toolUses := st.toolUses.map (fun t => if t.id = id then mergeToolUse t u else t) }

/-- clearSessionPermissions: one set call emptying the session grants, the
pending queue and the tool-use history; the persistent store is untouched
because zustand set merges the partial state. -/
def clearSessionPermissions (st : PermissionState) : PermissionState :=
  { st with sessionPermissions := [], pendingRequests := [], toolUses := [] }

/-- clearPersistentPermission: removes one key from the persistent store. -/
def clearPersistentPermission (st : PermissionState) (tool : ToolType)
    (path : Option String) : PermissionState :=
  { st with persistentPermissions := removeKey st.persistentPermissions (getPermissionKey tool path) }

/-- clearAllPersistentPermissions: empties the persistent store. -/
def clearAllPersistentPermissions (st : PermissionState) : PermissionState :=
  { st with persistentPermissions := [] }

/-! Websocket lifecycle (hooks/useWebSocket.ts).  What the claims need is
the interaction of the onopen and onclose handlers with the reconnect
attempt counter and the setTimeout(connect, delay) calls, and the fact
that disconnect() merely closes the socket.  Scheduled reconnect timers
are recorded as the list of delays passed to setTimeout. -/

/-- Connection status values reported through setConnectionStatus. -/
inductive ConnStatus where
  | connecting
  | connected
  | disconnected
  | error
deriving DecidableEq, Repr

/-- The lifecycle state of the hook: whether wsRef currently holds a live
socket, the reconnectAttempts ref, the delays of the reconnect timers
scheduled so far, and the connection status signal. -/
structure WSState where
  wsOpen : Bool
  reconnectAttempts : Nat
  scheduledReconnects : List Nat
  connectionStatus : ConnStatus
deriving DecidableEq, Repr

/-- The backoff delay of attempt n: min(1000 * 2 ^ n, 30000). -/
def reconnectDelay (n : Nat) : Nat :=
  min (1000 * 2 ^ n) 30000

/-- ws.onopen: reports connected and resets the attempt counter to zero. -/
def onOpen (st : WSState) : WSState :=
  { st with connectionStatus := .connected, reconnectAttempts := 0, wsOpen := true }

/-- ws.onclose: reports disconnected and, when fewer than 5 attempts have
been made, schedules connect after the backoff delay and increments the
counter.  The handler is installed on every socket and the browser fires
it for every close, including one caused by an explicit close() call; the
source contains no flag suppressing this path. -/
def onClose (st : WSState) : WSState :=
  let st1 : WSState := { st with connectionStatus := .disconnected, wsOpen := false }
  if st1.reconnectAttempts < 5 then
    { st1 with
      scheduledReconnects := st1.scheduledReconnects ++ [reconnectDelay st1.reconnectAttempts],
      reconnectAttempts := st1.reconnectAttempts + 1 }
  else st1

/-- disconnect(): closes the socket and nulls wsRef.  It neither touches
the attempt counter nor cancels a scheduled reconnect nor marks the close
as intentional. -/
def disconnect (st : WSState) : WSState :=
  { st with wsOpen := false }

/-- Iterate the onclose handler n times: n consecutive immediate
connection failures. -/
def closeRun (n : Nat) (st : WSState) : WSState :=
  match n with
  | 0 => st
  | n + 1 => closeRun n (onClose st)

/-- Map tool names from the agent CLI to the ToolType enum: the lookup
table of mapToolName. -/
def toolNameMapping : List (String × ToolType) :=
  [("read", .read), ("Read", .read),
   ("write", .write), ("Write", .write),
   ("edit", .write), ("Edit", .write),
   ("bash", .bash), ("Bash", .bash),
   ("browser", .browser), ("Browser", .browser),
   ("WebFetch", .browser), ("WebSearch", .browser)]

/-- mapToolName: table lookup with mcp as the fallback. -/
def mapToolName (name : String) : ToolType :=
  (toolNameMapping.lookup name).getD .mcp

/-- The fields of an inbound tool_use wire message. -/
structure ToolUseEvent where
  toolId : String
  toolName : String
  status : String
deriving DecidableEq, Repr

/-- The tool_use case of ws.onmessage acting on the permission store: a
running event appends a running entry via addToolUse, a completed event
sets the status of the matching id via updateToolUse, any other status is
not handled. -/
def onToolUseEvent (st : PermissionState) (now : Nat) (e : ToolUseEvent) :
    PermissionState :=
  if e.status = "running" then
    addToolUse st now
      { id := e.toolId
        tool := mapToolName e.toolName
        status := .running
        path := none
        command := none
        description := "Running " ++ e.toolName
        result := none
        error := none
        timestamp := now }
  else if e.status = "completed" then
    updateToolUse st e.toolId (statusUpdate .completed)
  else st

/-- Apply a sequence of tool_use events in arrival order. -/
def runToolEvents (st : PermissionState) (now : Nat) (evs : List ToolUseEvent) :
    PermissionState :=
  evs.foldl (fun s e => onToolUseEvent s now e) st

/-- Rank of a tool-use status in the lifecycle order pending, running,
terminal; completed and error are both terminal. -/
def statusRank : ToolStatus → Nat
  | .pending => 0
  | .running => 1
  | .completed => 2
  | .error => 2

/-! Mode store (stores/mode.ts). -/

/-- Interaction modes of the TS union type SessionMode. -/
inductive SessionMode where
  | normal
  | plan
deriving DecidableEq, Repr

/-- Statuses of a plan step. -/
inductive PlanStepStatus where
  | pending
  | in_progress
  | completed
  | skipped
deriving DecidableEq, Repr

/-- One step of a plan (interface PlanStep). -/
structure PlanStep where
  id : String
  description : String
  status : PlanStepStatus
deriving DecidableEq, Repr

/-- The mode store state (interface ModeState, data fields). -/
structure ModeState where
  mode : SessionMode
  planContent : Option String
  planSteps : List PlanStep
  planApproved : Bool
deriving DecidableEq, Repr

/-- toggleMode: flips the mode; when exiting plan mode the spread resets
planContent, planSteps and planApproved in the same set call, and when
entering plan mode it changes nothing else. -/
def toggleMode (s : ModeState) : ModeState :=
  match s.mode with
  | .plan => { mode := .normal, planContent := none, planSteps := [], planApproved := false }
  | .normal => { s with mode := .plan }

/-! Slash commands (lib/commands.ts) and the send handler of the session
page. -/

/-- Handler classes of a slash command. -/
inductive CommandHandler where
  | frontend
  | backend
deriving DecidableEq, Repr

/-- A static slash-command definition.  The icon reference is a UI-only
component value and is not modelled. -/
structure SlashCommand where
  name : String
  description : String
  handler : CommandHandler
  keywords : List String
deriving DecidableEq, Repr

/-- The static command table. -/
def commands : List SlashCommand :=
  [{ name := "help", description := "Show available commands",
     handler := .frontend, keywords := ["commands", "list", "?"] },
   { name := "clear", description := "Clear chat history",
     handler := .frontend, keywords := ["reset", "clean"] },
   { name := "plan", description := "Toggle plan mode",
     handler := .frontend, keywords := ["planning", "mode"] },
   { name := "status", description := "Show session status",
     handler := .backend, keywords := ["info", "session"] },
   { name := "files", description := "List modified files",
     handler := .backend, keywords := ["git", "changes", "modified"] },
   { name := "compact", description := "Compact conversation context",
     handler := .backend, keywords := ["compress", "summarize"] },
   { name := "cost", description := "Show session cost",
     handler := .backend, keywords := ["tokens", "usage", "price"] },
   { name := "settings", description := "Open settings",
     handler := .frontend, keywords := ["preferences", "config"] }]

/-- A parsed slash command: name token plus positional arguments. -/
structure ParsedCommand where
  command : String
  args : List String
deriving DecidableEq, Repr

mutual

/-- Split on runs of whitespace as the JS regex split does: the list
element under construction is accumulated in acc. -/
def jsSplitWsAux : List Char → List Char → List String
  | [], acc => [String.mk acc.reverse]
  | c :: cs, acc =>
    if c.isWhitespace then String.mk acc.reverse :: jsSplitWsSkip cs
    else jsSplitWsAux cs (c :: acc)

/-- Skip the remainder of a whitespace run, then resume splitting. -/
def jsSplitWsSkip : List Char → List String
  | [] => [""]
  | c :: cs =>
    if c.isWhitespace then jsSplitWsSkip cs
    else jsSplitWsAux cs [c]

end

/-- The JS String.prototype.split with the whitespace-run regex: maximal
whitespace runs separate the elements; a leading or trailing run
contributes an empty element. -/
def jsSplitWs (s : String) : List String :=
  jsSplitWsAux s.data []

/-- The JS String.prototype.trim: leading and trailing whitespace
removed. -/
def jsTrim (s : String) : String :=
  String.mk (((s.data.dropWhile Char.isWhitespace).reverse.dropWhile Char.isWhitespace).reverse)

/-- The JS String.prototype.startsWith. -/
def jsStartsWith (s pat : String) : Bool :=
  s.data.take pat.data.length = pat.data

/-- The JS String.prototype.toLowerCase, on the characters. -/
def jsToLower (s : String) : String :=
  String.mk (s.data.map Char.toLower)

/-- The JS String.prototype.slice from index n, on the characters. -/
def jsDrop (s : String) (n : Nat) : String :=
  String.mk (s.data.drop n)

/-- parseSlashCommand: trims, requires a leading slash, splits the rest on
whitespace; the lowercased first token is the command name and must be
nonempty, the remaining tokens are the arguments. -/
def parseSlashCommand (input : String) : Option ParsedCommand :=
  let trimmed := jsTrim input
  if ¬ jsStartsWith trimmed "/" then none
  else
    let parts := jsSplitWs (jsDrop trimmed 1)
    let command := jsToLower (parts.headD "")
    let args := parts.tail
    if command = "" then none
    else some { command := command, args := args }

/-- findCommand: exact lookup of the lowercased name in the table. -/
def findCommand (name : String) : Option SlashCommand :=
  commands.find? (fun cmd => cmd.name = jsToLower name)

/-- What handleSend does with the input: nothing on blank input, execution
of a resolved command, otherwise an ordinary chat message carrying the
current mode. -/
inductive SendAction where
  | nothing
  | execute (cmd : SlashCommand) (args : List String)
  | chat (text : String) (mode : SessionMode)
deriving DecidableEq, Repr

/-- handleSend of the session page: blank input is dropped; a parsed
input whose token resolves in the table is executed as that command;
anything else, including a slash input with an unknown token, is sent as
a chat message with the current mode. -/
def handleSend (inputValue : String) (mode : SessionMode) : SendAction :=
  if jsTrim inputValue = "" then .nothing
  else
    match parseSlashCommand inputValue with
    | some parsed =>
      match findCommand parsed.command with
      | some cmd => .execute cmd parsed.args
      | none => .chat inputValue mode
    | none => .chat inputValue mode

/-! Helper lemmas about grant-store lookup. -/

/-- Lookup after prepending the same key. -/
theorem lookup_setKey_self (s : GrantStore) (k : String) (v : Bool) :
    (setKey s k v).lookup k = some v := by
  simp [setKey, List.lookup]

/-- Lookup after prepending a different key. -/
theorem lookup_setKey_other (s : GrantStore) (k k1 : String) (v : Bool) (h : k ≠ k1) :
    (setKey s k v).lookup k1 = s.lookup k1 := by
  have hb : (k1 == k) = false := beq_eq_false_iff_ne.mpr (Ne.symm h)
  simp [setKey, List.lookup, hb]

/-- Removing any key preserves the absence of a key. -/
theorem lookup_removeKey_none (s : GrantStore) (k k1 : String)
    (h : s.lookup k = none) : (removeKey s k1).lookup k = none := by
  induction s with
  | nil => simp [removeKey]
  | cons a s ih =>
    obtain ⟨ka, va⟩ := a
    by_cases hk : ka = k
    · subst hk
      simp [List.lookup] at h
    · have hb : (k == ka) = false := beq_eq_false_iff_ne.mpr (Ne.symm hk)
      have htail : s.lookup k = none := by
        simpa only [List.lookup, hb] using h
      have ihh := ih htail
      by_cases h1 : ka = k1
      · have hrw : removeKey ((ka, va) :: s) k1 = removeKey s k1 := by
          simp [removeKey, List.filter_cons, h1]
        rw [hrw]
        exact ihh
      · have hrw : removeKey ((ka, va) :: s) k1 = (ka, va) :: removeKey s k1 := by
          simp [removeKey, List.filter_cons, h1]
        rw [hrw]
        simpa only [List.lookup, hb] using ihh

/-- Every status rank is at most the terminal rank. -/
theorem statusRank_le_two (s : ToolStatus) : statusRank s ≤ 2 := by
  cases s <;> simp [statusRank]

/-- One tool_use event preserves every existing tracker entry position:
the id is unchanged, the status rank never decreases, and a completed
entry stays completed. -/
theorem onToolUseEvent_entry (st : PermissionState) (now : Nat) (e : ToolUseEvent)
    (i : Nat) (t : ToolUse) (h : st.toolUses[i]? = some t) :
    ∃ t', (onToolUseEvent st now e).toolUses[i]? = some t'
      ∧ t'.id = t.id
      ∧ statusRank t.status ≤ statusRank t'.status
      ∧ (t.status = .completed → t'.status = .completed) := by
  by_cases hrun : e.status = "running"
  · refine ⟨t, ?_, rfl, le_refl _, fun hc => hc⟩
    have hi : i < st.toolUses.length := by
      rcases List.getElem?_eq_some.mp h with ⟨hlt, _⟩
      exact hlt
    simp only [onToolUseEvent, hrun, if_pos, addToolUse]
    rw [List.getElem?_append_left hi]
    simpa using h
  · by_cases hcomp : e.status = "completed"
    · have hgoal : (onToolUseEvent st now e).toolUses
          = st.toolUses.map
              (fun t => if t.id = e.toolId then mergeToolUse t (statusUpdate .completed) else t) := by
        simp [onToolUseEvent, hrun, hcomp, updateToolUse]
      by_cases hid : t.id = e.toolId
      · refine ⟨mergeToolUse t (statusUpdate .completed), ?_, rfl, ?_, fun _ => rfl⟩
        · rw [hgoal, List.getElem?_map, h]
          simp [hid]
        · exact le_trans (statusRank_le_two t.status) (le_refl 2)
      · refine ⟨t, ?_, rfl, le_refl _, fun hc => hc⟩
        rw [hgoal, List.getElem?_map, h]
        simp [hid]
    · refine ⟨t, ?_, rfl, le_refl _, fun hc => hc⟩
      have hgoal : onToolUseEvent st now e = st := by
        simp [onToolUseEvent, hrun, hcomp]
      rw [hgoal]
      exact h

/-- Monotonicity along a whole event sequence, by composing the one-step
lemma. -/
theorem runToolEvents_entry : ∀ (evs : List ToolUseEvent) (st : PermissionState)
    (now : Nat) (i : Nat) (t : ToolUse), st.toolUses[i]? = some t →
    ∃ t', (runToolEvents st now evs).toolUses[i]? = some t'
      ∧ t'.id = t.id
      ∧ statusRank t.status ≤ statusRank t'.status
      ∧ (t.status = .completed → t'.status = .completed)
  | [], _, _, _, t, h => ⟨t, h, rfl, le_refl _, fun hc => hc⟩
  | e :: evs, st, now, i, t, h => by
    obtain ⟨t1, h1, hid1, hr1, hc1⟩ := onToolUseEvent_entry st now e i t h
    obtain ⟨t2, h2, hid2, hr2, hc2⟩ :=
      runToolEvents_entry evs (onToolUseEvent st now e) now i t1 h1
    exact ⟨t2, h2, by rw [hid2, hid1], le_trans hr1 hr2, fun hc => hc2 (hc1 hc)⟩

/-- Mapping a function that fixes every member of a list leaves the list
unchanged. -/
theorem list_map_self {α : Type} (f : α → α) :
    ∀ (l : List α), (∀ a ∈ l, f a = a) → l.map f = l
  | [], _ => rfl
  | a :: l, h => by
    rw [List.map_cons, h a (List.mem_cons_self a l),
      list_map_self f l (fun b hb => h b (List.mem_cons_of_mem a hb))]

/-! Theorems settling the claims. -/

/-- C10: clearSessionPermissions empties, in one update, the session grant
store, the pending permission-request queue and the tool-use history,
while the persistent grant store is left unchanged. -/
theorem clearSessionPermissions_frame (st : PermissionState) :
    (clearSessionPermissions st).sessionPermissions = []
    ∧ (clearSessionPermissions st).pendingRequests = []
    ∧ (clearSessionPermissions st).toolUses = []
    ∧ (clearSessionPermissions st).persistentPermissions = st.persistentPermissions :=
  ⟨rfl, rfl, rfl, rfl⟩

/-- C9: toggling mode from plan back to normal discards the plan content,
the step list and the approval flag in the same state update, so toggling
plan mode off and then on again yields an empty, unapproved plan whatever
the prior plan state was. -/
theorem toggleMode_plan_reset (s : ModeState) (h : s.mode = .plan) :
    toggleMode s = { mode := .normal, planContent := none, planSteps := [], planApproved := false }
    ∧ toggleMode (toggleMode s)
      = { mode := .plan, planContent := none, planSteps := [], planApproved := false } := by
  constructor
  · simp [toggleMode, h]
  · simp [toggleMode, h]

/-- Witness for toggleMode_plan_reset at a fully populated plan state. -/
theorem toggleMode_plan_reset_witness :
    toggleMode { mode := .plan, planContent := some "p", planSteps := [⟨"1", "d", .pending⟩], planApproved := true }
      = { mode := .normal, planContent := none, planSteps := [], planApproved := false }
    ∧ toggleMode (toggleMode { mode := .plan, planContent := some "p", planSteps := [⟨"1", "d", .pending⟩], planApproved := true })
      = { mode := .plan, planContent := none, planSteps := [], planApproved := false } :=
  toggleMode_plan_reset
    { mode := .plan, planContent := some "p", planSteps := [⟨"1", "d", .pending⟩], planApproved := true }
    rfl

/-- C3: the code at the failing input.  From a connected state with the
attempt counter at zero, an explicit disconnect() closes the socket, the
browser then fires the onclose handler, and that handler schedules a
reconnect after 1000 milliseconds: nothing in disconnect() suppresses or
cancels the reconnect path. -/
theorem disconnect_then_close_schedules_reconnect :
    onClose (disconnect { wsOpen := true, reconnectAttempts := 0, scheduledReconnects := [], connectionStatus := .connected })
      = { wsOpen := false, reconnectAttempts := 1, scheduledReconnects := [1000], connectionStatus := .disconnected }
    ∧ (disconnect { wsOpen := true, reconnectAttempts := 0, scheduledReconnects := [], connectionStatus := .connected }).reconnectAttempts = 0 := by
  constructor <;> rfl

/-- C5: six consecutive immediate failures starting from attempt counter
zero schedule exactly the delays 1000, 2000, 4000, 8000 and 16000
milliseconds and leave the counter at five, the sixth close scheduling
nothing further; and after a successful open the counter is zero again,
so the next close schedules a 1000 millisecond delay. -/
theorem reconnect_backoff_sequence :
    (closeRun 6 { wsOpen := false, reconnectAttempts := 0, scheduledReconnects := [], connectionStatus := .disconnected }).scheduledReconnects
      = [1000, 2000, 4000, 8000, 16000]
    ∧ (closeRun 6 { wsOpen := false, reconnectAttempts := 0, scheduledReconnects := [], connectionStatus := .disconnected }).reconnectAttempts = 5
    ∧ ∀ st : WSState, (onOpen st).reconnectAttempts = 0
        ∧ (onClose (onOpen st)).scheduledReconnects = st.scheduledReconnects ++ [1000] := by
  refine ⟨by decide, by decide, fun st => ⟨rfl, ?_⟩⟩
  simp [onOpen, onClose, reconnectDelay]

/-- C2: checkPermission consults, in the fixed order persistent exact,
persistent wildcard, session exact, session wildcard, returning the first
cached boolean found, and returns none exactly when none of the four keys
is present in either store. -/
theorem checkPermission_precedence (st : PermissionState) (tool : ToolType) (path : Option String) :
    checkPermission st tool path = checkPermissionSpec st tool path
    ∧ (checkPermission st tool path = none ↔
        st.persistentPermissions.lookup (getPermissionKey tool path) = none
        ∧ st.persistentPermissions.lookup (getPermissionKey tool none) = none
        ∧ st.sessionPermissions.lookup (getPermissionKey tool path) = none
        ∧ st.sessionPermissions.lookup (getPermissionKey tool none) = none) := by
  cases h1 : st.persistentPermissions.lookup (getPermissionKey tool path) <;>
  cases h2 : st.persistentPermissions.lookup (getPermissionKey tool none) <;>
  cases h3 : st.sessionPermissions.lookup (getPermissionKey tool path) <;>
  cases h4 : st.sessionPermissions.lookup (getPermissionKey tool none) <;>
  simp [checkPermission, checkPermissionSpec, h1, h2, h3, h4]

/-- C1 counterexample: with a persistent wildcard grant of false and a
session exact-path grant of true for the same tool, checkPermission
returns false, not true — the persistent tier is consulted before the
session tier. -/
theorem checkPermission_wildcard_cex :
    checkPermission
        { pendingRequests := [], sessionPermissions := [("read:/a", true)],
          persistentPermissions := [("read:*", false)], toolUses := [] }
        .read (some "/a") = some false
    ∧ checkPermission
        { pendingRequests := [], sessionPermissions := [("read:/a", true)],
          persistentPermissions := [("read:*", false)], toolUses := [] }
        .read (some "/a") ≠ some true := by
  constructor <;> decide

/-- C1 amended: the persistent tier wins over the session tier regardless
of path specificity.  If the persistent store has no exact-path grant but
holds a wildcard grant b for the tool, check returns b whatever the
session store holds; and a persistent exact-path grant always determines
the result. -/
theorem checkPermission_persistent_tier_wins (st : PermissionState) (tool : ToolType)
    (path : Option String) (b : Bool) :
    (st.persistentPermissions.lookup (getPermissionKey tool path) = none →
      st.persistentPermissions.lookup (getPermissionKey tool none) = some b →
      checkPermission st tool path = some b)
    ∧ (st.persistentPermissions.lookup (getPermissionKey tool path) = some b →
      checkPermission st tool path = some b) := by
  constructor
  · intro h1 h2
    simp [checkPermission, h1, h2]
  · intro h1
    simp [checkPermission, h1]

/-- Witness for checkPermission_persistent_tier_wins: the concrete state
of the counterexample, and a state where a persistent exact-path grant
overrides a conflicting session grant. -/
theorem checkPermission_persistent_tier_wins_witness :
    checkPermission
        { pendingRequests := [], sessionPermissions := [("read:/a", true)],
          persistentPermissions := [("read:*", false)], toolUses := [] }
        .read (some "/a") = some false
    ∧ checkPermission
        { pendingRequests := [], sessionPermissions := [("read:/a", false)],
          persistentPermissions := [("read:/a", true)], toolUses := [] }
        .read (some "/a") = some true :=
  ⟨(checkPermission_persistent_tier_wins
      { pendingRequests := [], sessionPermissions := [("read:/a", true)],
        persistentPermissions := [("read:*", false)], toolUses := [] }
      .read (some "/a") false).1 (by decide) (by decide),
   (checkPermission_persistent_tier_wins
      { pendingRequests := [], sessionPermissions := [("read:/a", false)],
        persistentPermissions := [("read:/a", true)], toolUses := [] }
      .read (some "/a") true).2 (by decide)⟩

/-- C4: resolving a request with scope once writes no grant into either
store, leaves no pending request with that id behind, and — when neither
store holds a grant for the tool's exact or wildcard key — a subsequent
check of the same tool and path returns none, so the user must be asked
again. -/
theorem resolveRequest_once_no_grant (st : PermissionState) (id : String) (v : Bool) :
    (resolveRequest st id v .once).sessionPermissions = st.sessionPermissions
    ∧ (resolveRequest st id v .once).persistentPermissions = st.persistentPermissions
    ∧ (∀ r ∈ (resolveRequest st id v .once).pendingRequests, r.id ≠ id)
    ∧ (∀ tool path,
        st.persistentPermissions.lookup (getPermissionKey tool path) = none →
        st.persistentPermissions.lookup (getPermissionKey tool none) = none →
        st.sessionPermissions.lookup (getPermissionKey tool path) = none →
        st.sessionPermissions.lookup (getPermissionKey tool none) = none →
        checkPermission (resolveRequest st id v .once) tool path = none) := by
  cases hf : st.pendingRequests.find? (fun r => r.id = id) with
  | none =>
    have hres : resolveRequest st id v .once = st := by
      simp [resolveRequest, hf]
    rw [hres]
    refine ⟨rfl, rfl, ?_, ?_⟩
    · intro r hr
      have := List.find?_eq_none.mp hf r hr
      simpa using this
    · intro tool path h1 h2 h3 h4
      simp [checkPermission, h1, h2, h3, h4]
  | some req =>
    have hres : resolveRequest st id v .once
        = { st with pendingRequests := st.pendingRequests.filter (fun r => r.id ≠ id) } := by
      simp [resolveRequest, hf]
    rw [hres]
    refine ⟨rfl, rfl, ?_, ?_⟩
    · intro r hr
      have := (List.mem_filter.mp hr).2
      simpa using this
    · intro tool path h1 h2 h3 h4
      simp [checkPermission, h1, h2, h3, h4]

/-- Witness for resolveRequest_once_no_grant: one pending request for
read on /a, resolved once-allowed; the check afterwards is none and the
grant stores stay empty. -/
theorem resolveRequest_once_no_grant_witness :
    checkPermission
      (resolveRequest
        { pendingRequests := [⟨"1", .read, some "/a", none, "d", 0, .pending⟩],
          sessionPermissions := [], persistentPermissions := [], toolUses := [] }
        "1" true .once) .read (some "/a") = none
    ∧ (resolveRequest
        { pendingRequests := [⟨"1", .read, some "/a", none, "d", 0, .pending⟩],
          sessionPermissions := [], persistentPermissions := [], toolUses := [] }
        "1" true .once).sessionPermissions = [] :=
  ⟨(resolveRequest_once_no_grant
      { pendingRequests := [⟨"1", .read, some "/a", none, "d", 0, .pending⟩],
        sessionPermissions := [], persistentPermissions := [], toolUses := [] }
      "1" true).2.2.2 .read (some "/a") (by decide) (by decide) (by decide) (by decide),
   (resolveRequest_once_no_grant
      { pendingRequests := [⟨"1", .read, some "/a", none, "d", 0, .pending⟩],
        sessionPermissions := [], persistentPermissions := [], toolUses := [] }
      "1" true).1⟩

/-- C7 counterexample: after a session-scoped resolution of true for
(read, /a), check returns true; a later persistent-store operation — an
always-scoped resolution of false for the same tool and path — changes
the result of check to false, so check is not unaffected by
persistent-store operations. -/
theorem sessionGrant_persistent_op_cex :
    checkPermission
      (resolveRequest
        { pendingRequests := [⟨"1", .read, some "/a", none, "d", 0, .pending⟩,
                              ⟨"2", .read, some "/a", none, "d", 0, .pending⟩],
          sessionPermissions := [], persistentPermissions := [], toolUses := [] }
        "1" true .session) .read (some "/a") = some true
    ∧ checkPermission
      (resolveRequest
        (resolveRequest
          { pendingRequests := [⟨"1", .read, some "/a", none, "d", 0, .pending⟩,
                                ⟨"2", .read, some "/a", none, "d", 0, .pending⟩],
            sessionPermissions := [], persistentPermissions := [], toolUses := [] }
          "1" true .session) "2" false .always) .read (some "/a") = some false := by
  constructor <;> decide

/-- C7 amended: a session-scoped resolution writes the resolved boolean
under the request's key while leaving the persistent store unchanged; and
whenever the session store holds the grant and the persistent store holds
no grant for the tool's exact or wildcard key, check returns that boolean,
and it keeps doing so under clearing one persistent grant, clearing all
persistent grants, and always-scoped resolutions whose key is neither the
tool's exact key nor its wildcard key.  An always-scoped grant on one of
those two keys, by contrast, overrides the session grant. -/
theorem sessionGrant_stable :
    (∀ (st : PermissionState) (id : String) (v : Bool) (r : PermissionRequest),
      st.pendingRequests.find? (fun q => q.id = id) = some r →
      (resolveRequest st id v .session).sessionPermissions.lookup
          (getPermissionKey r.tool r.path) = some v
      ∧ (resolveRequest st id v .session).persistentPermissions = st.persistentPermissions)
    ∧ (∀ (st : PermissionState) (tool : ToolType) (path : Option String) (v : Bool),
      st.sessionPermissions.lookup (getPermissionKey tool path) = some v →
      st.persistentPermissions.lookup (getPermissionKey tool path) = none →
      st.persistentPermissions.lookup (getPermissionKey tool none) = none →
      checkPermission st tool path = some v
      ∧ (∀ tool1 path1,
          checkPermission (clearPersistentPermission st tool1 path1) tool path = some v)
      ∧ checkPermission (clearAllPersistentPermissions st) tool path = some v
      ∧ (∀ (id1 : String) (v1 : Bool) (r : PermissionRequest),
          st.pendingRequests.find? (fun q => q.id = id1) = some r →
          getPermissionKey r.tool r.path ≠ getPermissionKey tool path →
          getPermissionKey r.tool r.path ≠ getPermissionKey tool none →
          checkPermission (resolveRequest st id1 v1 .always) tool path = some v)) := by
  constructor
  · intro st id v r hf
    have e1 : (resolveRequest st id v .session).sessionPermissions
        = setKey st.sessionPermissions (getPermissionKey r.tool r.path) v := by
      simp [resolveRequest, hf]
    have e2 : (resolveRequest st id v .session).persistentPermissions
        = st.persistentPermissions := by
      simp [resolveRequest, hf]
    exact ⟨by rw [e1]; exact lookup_setKey_self _ _ _, e2⟩
  · intro st tool path v hs hp1 hp2
    refine ⟨by simp [checkPermission, hs, hp1, hp2], ?_, ?_, ?_⟩
    · intro tool1 path1
      have q1 : (clearPersistentPermission st tool1 path1).persistentPermissions.lookup
          (getPermissionKey tool path) = none :=
        lookup_removeKey_none _ _ _ hp1
      have q2 : (clearPersistentPermission st tool1 path1).persistentPermissions.lookup
          (getPermissionKey tool none) = none :=
        lookup_removeKey_none _ _ _ hp2
      have q3 : (clearPersistentPermission st tool1 path1).sessionPermissions
          = st.sessionPermissions := rfl
      simp [checkPermission, q1, q2, q3, hs]
    · simp [checkPermission, clearAllPersistentPermissions, List.lookup, hs]
    · intro id1 v1 r hf hk1 hk2
      have e1 : (resolveRequest st id1 v1 .always).persistentPermissions
          = setKey st.persistentPermissions (getPermissionKey r.tool r.path) v1 := by
        simp [resolveRequest, hf]
      have e2 : (resolveRequest st id1 v1 .always).sessionPermissions
          = st.sessionPermissions := by
        simp [resolveRequest, hf]
      have q1 : (resolveRequest st id1 v1 .always).persistentPermissions.lookup
          (getPermissionKey tool path) = none := by
        rw [e1, lookup_setKey_other _ _ _ _ hk1]
        exact hp1
      have q2 : (resolveRequest st id1 v1 .always).persistentPermissions.lookup
          (getPermissionKey tool none) = none := by
        rw [e1, lookup_setKey_other _ _ _ _ hk2]
        exact hp2
      have q3 : (resolveRequest st id1 v1 .always).sessionPermissions.lookup
          (getPermissionKey tool path) = some v := by
        rw [e2]
        exact hs
      simp [checkPermission, q1, q2, q3]

/-- Witness for sessionGrant_stable: a concrete state with a session grant
for (read, /a), an empty persistent store and one unrelated pending
request; the grant survives a persistent clear and an always-scoped
resolution of the unrelated request. -/
theorem sessionGrant_stable_witness :
    ((resolveRequest
        { pendingRequests := [⟨"1", .read, some "/a", none, "d", 0, .pending⟩],
          sessionPermissions := [], persistentPermissions := [], toolUses := [] }
        "1" true .session).sessionPermissions.lookup (getPermissionKey .read (some "/a")) = some true
      ∧ (resolveRequest
        { pendingRequests := [⟨"1", .read, some "/a", none, "d", 0, .pending⟩],
          sessionPermissions := [], persistentPermissions := [], toolUses := [] }
        "1" true .session).persistentPermissions = [])
    ∧ (checkPermission
        { pendingRequests := [⟨"9", .write, some "/b", none, "d", 0, .pending⟩],
          sessionPermissions := [("read:/a", true)], persistentPermissions := [], toolUses := [] }
        .read (some "/a") = some true
      ∧ (∀ tool1 path1,
          checkPermission
            (clearPersistentPermission
              { pendingRequests := [⟨"9", .write, some "/b", none, "d", 0, .pending⟩],
                sessionPermissions := [("read:/a", true)], persistentPermissions := [], toolUses := [] }
              tool1 path1) .read (some "/a") = some true)
      ∧ checkPermission
          (clearAllPersistentPermissions
            { pendingRequests := [⟨"9", .write, some "/b", none, "d", 0, .pending⟩],
              sessionPermissions := [("read:/a", true)], persistentPermissions := [], toolUses := [] })
          .read (some "/a") = some true
      ∧ checkPermission
          (resolveRequest
            { pendingRequests := [⟨"9", .write, some "/b", none, "d", 0, .pending⟩],
              sessionPermissions := [("read:/a", true)], persistentPermissions := [], toolUses := [] }
            "9" false .always) .read (some "/a") = some true) :=
  ⟨sessionGrant_stable.1
      { pendingRequests := [⟨"1", .read, some "/a", none, "d", 0, .pending⟩],
        sessionPermissions := [], persistentPermissions := [], toolUses := [] }
      "1" true ⟨"1", .read, some "/a", none, "d", 0, .pending⟩ (by decide),
   by
    have h := sessionGrant_stable.2
      { pendingRequests := [⟨"9", .write, some "/b", none, "d", 0, .pending⟩],
        sessionPermissions := [("read:/a", true)], persistentPermissions := [], toolUses := [] }
      .read (some "/a") true (by decide) (by decide) (by decide)
    exact ⟨h.1, h.2.1, h.2.2.1,
      h.2.2.2 "9" false ⟨"9", .write, some "/b", none, "d", 0, .pending⟩
        (by decide) (by decide) (by decide)⟩⟩

/-- C6: for every sequence of tool_use events, every tracker entry keeps
its id and its status rank never decreases — in particular a completed
entry stays completed; a non-running event for an id not present in the
tracker is ignored and creates no entry; and a running event appends
exactly one new running entry for its id. -/
theorem toolUse_status_monotone (st : PermissionState) (now : Nat) (evs : List ToolUseEvent) :
    (∀ (i : Nat) (t : ToolUse), st.toolUses[i]? = some t →
      ∃ t', (runToolEvents st now evs).toolUses[i]? = some t'
        ∧ t'.id = t.id
        ∧ statusRank t.status ≤ statusRank t'.status
        ∧ (t.status = .completed → t'.status = .completed))
    ∧ (∀ e : ToolUseEvent, e.status ≠ "running" →
        (∀ t ∈ st.toolUses, t.id ≠ e.toolId) → onToolUseEvent st now e = st)
    ∧ (∀ e : ToolUseEvent, e.status = "running" →
        (onToolUseEvent st now e).toolUses
          = st.toolUses ++
            [{ id := e.toolId, tool := mapToolName e.toolName, status := .running,
               path := none, command := none, description := "Running " ++ e.toolName,
               result := none, error := none, timestamp := now }]) := by
  refine ⟨fun i t h => runToolEvents_entry evs st now i t h, ?_, ?_⟩
  · intro e he hids
    by_cases hcomp : e.status = "completed"
    · have hmap : st.toolUses.map
          (fun t => if t.id = e.toolId then mergeToolUse t (statusUpdate .completed) else t)
          = st.toolUses :=
        list_map_self _ st.toolUses (fun t ht => if_neg (hids t ht))
      simp [onToolUseEvent, he, hcomp, updateToolUse, hmap]
    · simp [onToolUseEvent, he, hcomp]
  · intro e he
    simp [onToolUseEvent, he, addToolUse]

/-- Witness for toolUse_status_monotone: a tracker holding one completed
entry keeps it completed across further events; a completed event for an
unknown id changes nothing; a running event appends a running entry. -/
theorem toolUse_status_monotone_witness :
    (∃ t', (runToolEvents
        { pendingRequests := [], sessionPermissions := [], persistentPermissions := [],
          toolUses := [⟨"t1", .read, .completed, none, none, "d", none, none, 0⟩] }
        0 [⟨"t1", "Read", "completed"⟩, ⟨"t2", "Bash", "running"⟩]).toolUses[0]? = some t'
      ∧ t'.id = "t1"
      ∧ statusRank .completed ≤ statusRank t'.status
      ∧ (ToolStatus.completed = .completed → t'.status = .completed))
    ∧ onToolUseEvent
        { pendingRequests := [], sessionPermissions := [], persistentPermissions := [],
          toolUses := [] } 0 ⟨"x", "Read", "completed"⟩
      = { pendingRequests := [], sessionPermissions := [], persistentPermissions := [],
          toolUses := [] }
    ∧ (onToolUseEvent
        { pendingRequests := [], sessionPermissions := [], persistentPermissions := [],
          toolUses := [] } 0 ⟨"y", "Bash", "running"⟩).toolUses
      = [] ++
        [{ id := "y", tool := mapToolName "Bash", status := .running, path := none,
           command := none, description := "Running " ++ "Bash", result := none,
           error := none, timestamp := 0 }] :=
  ⟨(toolUse_status_monotone
      { pendingRequests := [], sessionPermissions := [], persistentPermissions := [],
        toolUses := [⟨"t1", .read, .completed, none, none, "d", none, none, 0⟩] }
      0 [⟨"t1", "Read", "completed"⟩, ⟨"t2", "Bash", "running"⟩]).1
      0 ⟨"t1", .read, .completed, none, none, "d", none, none, 0⟩ rfl,
   (toolUse_status_monotone
      { pendingRequests := [], sessionPermissions := [], persistentPermissions := [],
        toolUses := [] } 0 []).2.1 ⟨"x", "Read", "completed"⟩ (by decide) (by simp),
   (toolUse_status_monotone
      { pendingRequests := [], sessionPermissions := [], persistentPermissions := [],
        toolUses := [] } 0 []).2.2 ⟨"y", "Bash", "running"⟩ rfl⟩

/-- C8: parsing "/Status arg1" yields the command name status — matched
case-insensitively — with argument list ["arg1"], and the send handler
executes the resolved status command; "nonexistent" resolves to no
command in the static table, and in general any input that parses as a
slash command whose token resolves to no known command is sent through
as an ordinary chat message. -/
theorem slashCommand_routing :
    parseSlashCommand "/Status arg1" = some { command := "status", args := ["arg1"] }
    ∧ handleSend "/Status arg1" .normal
      = .execute
          { name := "status", description := "Show session status",
            handler := .backend, keywords := ["info", "session"] } ["arg1"]
    ∧ findCommand "nonexistent" = none
    ∧ handleSend "/nonexistent" .normal = .chat "/nonexistent" .normal
    ∧ (∀ (s : String) (m : SessionMode) (pc : ParsedCommand),
        parseSlashCommand s = some pc → findCommand pc.command = none →
        handleSend s m = .chat s m) := by
  refine ⟨by decide, by decide, by decide, by decide, ?_⟩
  intro s m pc hp hf
  have hne : jsTrim s ≠ "" := by
    intro h0
    have hfalse : jsStartsWith (jsTrim s) "/" = false := by
      rw [h0]
      decide
    simp [parseSlashCommand, hfalse] at hp
  simp [handleSend, hne, hp, hf]

/-- Witness for slashCommand_routing at an input whose token is not in the
command table. -/
theorem slashCommand_routing_witness :
    handleSend "/zzz x" .plan = .chat "/zzz x" .plan :=
  slashCommand_routing.2.2.2.2 "/zzz x" .plan { command := "zzz", args := ["x"] }
    (by decide) (by decide)

end AIAdminUI
